import Mathlib

/-!
Verification of the natural-language specification of the ripple-keypairs
library against a shallow embedding of its JavaScript sources.

Conventions of the embedding:
* Bytes are `Nat` values (< 256 in every concrete use); byte strings are
  `List Nat`, machine integers are `Nat` with explicit `% 2 ^ w` where
  overflow matters.
* The external 512-bit hash function (hash.js sha512, consumed through the
  repository's streaming `Sha512` accumulator) is a parameter
  `H : List Nat → List Nat` mapping the accumulated input bytes to the
  64-byte digest.  All derivation code of the repository is embedded
  generically in `H`, so every theorem quantifies over the hash.
* The external elliptic-curve library (elliptic) is a parameter as well:
  a bundle of the operations the repository calls, with an abstract point
  type `P` and key-object type `κ`.  Calls that can throw in JavaScript
  return `Except JsError`; exceptions of the embedded repository code are
  `Option.none` (a JavaScript `throw` that nothing below catches) or
  `Except.error` values that propagate through `bind`.
* JavaScript truthiness of an optional field is `Option.isSome` (`undefined`
  is the only falsy value that occurs at those tests: the stored values are
  arrays, and arrays — empty ones included — are truthy in JavaScript).
-/

namespace RippleKeypairs

/-- Big-endian bytes of a 32-bit counter, as written by the accumulator's
`addU32` convenience append (spec §4.1). -/
def u32BE (n : Nat) : List Nat :=
  [n / 2 ^ 24 % 256, n / 2 ^ 16 % 256, n / 2 ^ 8 % 256, n % 256]

/-- Byte string read as a big-endian unsigned integer (bn.js semantics of
`first256BN`). -/
def bytesToNatBE (l : List Nat) : Nat :=
  l.foldl (fun acc b => acc * 256 + b) 0

/-- Fixed-length big-endian byte array of a number: bn.js
`toArray('be', len)` for a number that fits in `len` bytes. -/
def natToBytesBE (len n : Nat) : List Nat :=
  (List.range len).map (fun i => n / 256 ^ (len - 1 - i) % 256)

theorem natToBytesBE_length (len n : Nat) : (natToBytesBE len n).length = len := by
  simp [natToBytesBE]

/-- An exception thrown by the external elliptic-curve library (for example
a point-decoding failure on a malformed public key).  The repository treats
these values as opaque, so a single constructor suffices. -/
inductive JsError where
  | thrown : JsError
deriving DecidableEq

/-- Order of the secp256k1 group: `elliptic.ec('secp256k1').curve.n`, read
by `deriveScalar` and `deriveSecret` as `const order = secp256k1.curve.n`. -/
def order : Nat :=
  0xFFFFFFFFFFFFFFFFFFFFFFFFFFFFFFFEBAAEDCE6AF48A03BBFD25E8CD0364141

/-- Modelled from the spec: the repository's streaming hash accumulator
(`src/sha512.js`, required by `src/utils.js` but not under `src/`).
Spec §4.1: it accepts repeated appends of byte sequences and a convenience
append of a big-endian 32-bit integer, finalizes to a 64-byte digest, and
exposes a first-32-bytes accessor plus a big-integer accessor.  The state
is the accumulated input; the digest applies the external hash `H`. -/
structure Sha512 where
  bytes : List Nat

/-- Fresh accumulator: `new Sha512()`. -/
def Sha512.empty : Sha512 := ⟨[]⟩

/-- Append a byte sequence: `hasher.add(bytes)`. -/
def Sha512.add (s : Sha512) (b : List Nat) : Sha512 := ⟨s.bytes ++ b⟩

/-- Append a big-endian 32-bit integer: `hasher.addU32(i)`. -/
def Sha512.addU32 (s : Sha512) (n : Nat) : Sha512 := s.add (u32BE n)

/-- Finalize to the 64-byte digest under the external hash `H`. -/
def Sha512.digest (H : List Nat → List Nat) (s : Sha512) : List Nat := H s.bytes

/-- First 32 bytes of the digest: `hasher.first256()`. -/
def Sha512.first256 (H : List Nat → List Nat) (s : Sha512) : List Nat :=
  (s.digest H).take 32

/-- First 32 bytes of the digest as a big-endian unsigned integer:
`hasher.first256BN()`. -/
def Sha512.first256BN (H : List Nat → List Nat) (s : Sha512) : Nat :=
  bytesToNatBE (s.first256 H)

/-! ## Scalar derivation (src/src/secp256k1.js, deriveScalar) -/

/-- Candidate value examined by iteration `i` of `deriveScalar`'s loop:
`new Sha512().add(bytes)`, then `addU32(discrim)` when the optional
discriminator was passed, then `addU32(i)`, then `first256BN()`
(src/src/secp256k1.js lines 14-20). -/
def scalarCandidate (H : List Nat → List Nat) (bytes : List Nat)
    (discrim : Option Nat) (i : Nat) : Nat :=
  (((match discrim with
     | some d => (Sha512.empty.add bytes).addU32 d
     | none => Sha512.empty.add bytes)).addU32 i).first256BN H

/-- Boolean form of the loop's acceptance test
`key.cmpn(0) > 0 && key.cmp(order) < 0`. -/
def scalarOkB (H : List Nat → List Nat) (bytes : List Nat)
    (discrim : Option Nat) (i : Nat) : Bool :=
  decide (0 < scalarCandidate H bytes discrim i ∧ scalarCandidate H bytes discrim i < order)

/-- Body of `deriveScalar`'s counter loop, counting the remaining
iterations in `fuel` with current counter value `i`
(src/src/secp256k1.js lines 11-24).  `none` is the `throw` after the loop. -/
def deriveScalarLoop (H : List Nat → List Nat) (bytes : List Nat)
    (discrim : Option Nat) : Nat → Nat → Option Nat
  | _, 0 => none
  | i, fuel + 1 =>
    let key := scalarCandidate H bytes discrim i
    if 0 < key ∧ key < order then some key
    else deriveScalarLoop H bytes discrim (i + 1) fuel

/-- `deriveScalar(bytes, discrim)` (src/src/secp256k1.js lines 9-26): the
counter runs over `0 <= i <= 0xFFFFFFFF`, i.e. `2 ^ 32` iterations; `none`
models the fatal `throw new Error('impossible unicorn')`. -/
def deriveScalar (H : List Nat → List Nat) (bytes : List Nat)
    (discrim : Option Nat) : Option Nat :=
  deriveScalarLoop H bytes discrim 0 0x100000000

theorem deriveScalarLoop_eq_find (H : List Nat → List Nat) (bytes : List Nat)
    (discrim : Option Nat) :
    ∀ (fuel i : Nat),
      deriveScalarLoop H bytes discrim i fuel
        = ((List.range' i fuel).find? (scalarOkB H bytes discrim)).map
            (scalarCandidate H bytes discrim) := by
  intro fuel
  induction fuel with
  | zero => intro i; simp [deriveScalarLoop]
  | succ n ih =>
    intro i
    rw [List.range'_succ]
    by_cases h : 0 < scalarCandidate H bytes discrim i ∧ scalarCandidate H bytes discrim i < order
    · rw [List.find?_cons_of_pos _ (by simp [scalarOkB, h])]
      simp [deriveScalarLoop, h]
    · rw [List.find?_cons_of_neg _ (by simp [scalarOkB, h])]
      simp only [deriveScalarLoop, if_neg h]
      exact ih (i + 1)

theorem deriveScalarLoop_range (H : List Nat → List Nat) (bytes : List Nat)
    (discrim : Option Nat) :
    ∀ (fuel i k : Nat), deriveScalarLoop H bytes discrim i fuel = some k →
      0 < k ∧ k < order := by
  intro fuel
  induction fuel with
  | zero => intro i k h; simp [deriveScalarLoop] at h
  | succ n ih =>
    intro i k h
    by_cases hok : 0 < scalarCandidate H bytes discrim i ∧ scalarCandidate H bytes discrim i < order
    · simp only [deriveScalarLoop, if_pos hok, Option.some.injEq] at h
      exact h ▸ hok
    · simp only [deriveScalarLoop, if_neg hok] at h
      exact ih (i + 1) k h

/-! ## External secp256k1 library interface (elliptic, consumed opaquely) -/

/-- Argument accepted by elliptic's `keyFromPrivate`: "elliptic will happily
parse bytes or a bn.js object" (src/unnamed/part_003 line 115). -/
inductive BNorBytes where
  | bytes : List Nat → BNorBytes
  | bn : Nat → BNorBytes
deriving DecidableEq

/-- Operations the repository calls on `elliptic.ec('secp256k1')`, with an
abstract point type `P` and key-object type `κ`.  Point arithmetic and
compressed encoding are total; key construction from bytes and
sign/verify may throw (`Except.error`) on malformed input. -/
structure K256Lib (P : Type) (κ : Type) where
  mulG : Nat → P
  encodeCompressed : P → List Nat
  keyFromPrivate : BNorBytes → Except JsError κ
  keyFromPublic : List Nat → Except JsError κ
  getPublicCompressed : κ → List Nat
  sign : κ → List Nat → Except JsError (List Nat)
  verify : κ → List Nat → List Nat → Except JsError Bool

/-- Options object of `deriveSecret(seed, opts)`.  `validator` is read with
JavaScript truthiness (absent means `false`); `accountIndex` is optional. -/
structure K256Opts where
  validator : Bool
  accountIndex : Option Nat

/-- `deriveSecret(seed, opts)` (src/src/secp256k1.js lines 37-54).  The
private generator is derived first; a root (validator) derivation returns
it unchanged; otherwise the offset scalar is derived from the compressed
public generator with the account index as discriminator, where
`opts.accountIndex || 0` defaults to `0` (for `Nat` the JavaScript `|| 0`
agrees with `Option.getD 0`, since `0` itself is falsy).  A `none` from
`deriveScalar` is the propagating fatal throw. -/
def deriveSecret {P κ : Type} (H : List Nat → List Nat) (lib : K256Lib P κ)
    (seed : List Nat) (opts : K256Opts) : Option Nat :=
  match deriveScalar H seed none with
  | none => none
  | some privateGen =>
    if opts.validator then
      some privateGen
    else
      match deriveScalar H (lib.encodeCompressed (lib.mulG privateGen))
          (some (opts.accountIndex.getD 0)) with
      | none => none
      | some offset => some ((offset + privateGen) % order)

/-- `hashMessage(message)` (src/src/secp256k1.js lines 109-111 and
src/unnamed/part_003 lines 124-126): the first 32 bytes of the 512-bit hash
of the message. -/
def hashMessage (H : List Nat → List Nat) (message : List Nat) : List Nat :=
  (Sha512.empty.add message).first256 H

/-! ## K256Pair, prototype revision (src/unnamed/part_003)

This revision builds the class with `extendClass`; a method listed under
`cached` memoizes its result in the slot named by an underscore followed by
the method name.  The constructor (src/unnamed/part_005 lines 15-20) stores
`_seedBytes`, `_publicBytes` and `_privateBytes`, so the memo slots of the
cached methods `publicBytes` and `privateBytes` are pre-filled whenever the
pair was constructed from public or private bytes. -/

structure K256ProtoPair where
  _seedBytes : Option (List Nat)
  _publicBytes : Option (List Nat)
  _privateBytes : Option (List Nat)
  validator : Bool

/-- `K256Pair.fromSeed(seedBytes, opts)` (src/unnamed/part_003 lines 84-86). -/
def K256ProtoPair.fromSeed (seedBytes : List Nat) (validator : Bool) : K256ProtoPair :=
  ⟨some seedBytes, none, none, validator⟩

/-- `K256Pair.fromPublic(publicKey)` (src/unnamed/part_003 lines 76-78),
after `parsePublicKey` has produced the byte array. -/
def K256ProtoPair.fromPublic (publicKey : List Nat) : K256ProtoPair :=
  ⟨none, some publicKey, none, false⟩

/-- `K256Pair.fromPrivate(privateKey)` (src/unnamed/part_003 lines 80-82). -/
def K256ProtoPair.fromPrivate (privateKey : List Nat) : K256ProtoPair :=
  ⟨none, none, some privateKey, false⟩

/-- `hasPrivateKey()` (src/unnamed/part_005 lines 72-74):
`this._privateBytes || this._seedBytes` under JavaScript truthiness. -/
def K256ProtoPair.hasPrivateKey (p : K256ProtoPair) : Bool :=
  p._privateBytes.isSome || p._seedBytes.isSome

/-- `_private()` (src/unnamed/part_003 lines 114-118):
`this._privateBytes || derivePrivate(this._seedBytes, {validator: this.validator})`.
`derivePrivate` there is textually identical to `deriveSecret`
(src/src/secp256k1.js lines 37-54), so the embedding reuses `deriveSecret`.
With neither private bytes nor a seed the call would throw inside the hash
(`none`); a `none` from `deriveSecret` is the propagating fatal throw. -/
def K256ProtoPair.privateBN {P κ : Type} (H : List Nat → List Nat)
    (lib : K256Lib P κ) (p : K256ProtoPair) : Option BNorBytes :=
  match p._privateBytes with
  | some pb => some (BNorBytes.bytes pb)
  | none =>
    match p._seedBytes with
    | some s => (deriveSecret H lib s ⟨p.validator, none⟩).map BNorBytes.bn
    | none => none

/-- Cached `privateBytes()` (src/unnamed/part_003 lines 133-135):
`this._private().toArray('be', 32)`.  The memo slot is `_privateBytes`,
which the constructor pre-fills for a `fromPrivate` pair, so the stored
bytes are returned unchanged in that case; otherwise the derived scalar is
laid out as 32 big-endian bytes.  (On the `fromPrivate` path the bare
expression would in fact throw — plain arrays have no `toArray` — but the
pre-filled memo slot means that expression is never reached.) -/
def K256ProtoPair.privateBytes {P κ : Type} (H : List Nat → List Nat)
    (lib : K256Lib P κ) (p : K256ProtoPair) : Option (List Nat) :=
  match p._privateBytes with
  | some pb => some pb
  | none =>
    match p._seedBytes with
    | some s => (deriveSecret H lib s ⟨p.validator, none⟩).map (natToBytesBE 32)
    | none => none

/-- `key()` (src/unnamed/part_003 lines 137-142): a key object from the
private material when `hasPrivateKey()`, else from the stored public bytes
(the cached `publicBytes()` reduces to the pre-filled `_publicBytes` memo
slot there).  With no material at all, `publicBytes()` and `key()` would
recurse into each other without a base case (`none`); no constructor
produces that state. -/
def K256ProtoPair.key {P κ : Type} (H : List Nat → List Nat)
    (lib : K256Lib P κ) (p : K256ProtoPair) : Option (Except JsError κ) :=
  if p.hasPrivateKey then
    (p.privateBN H lib).map lib.keyFromPrivate
  else
    match p._publicBytes with
    | some pb => some (lib.keyFromPublic pb)
    | none => none

/-- Body of `verify(signature, message)` before the surrounding try/catch
(src/unnamed/part_003 line 102):
`this.key().verify(this.hashMessage(message), signature)`. -/
def K256ProtoPair.verifyBody {P κ : Type} (H : List Nat → List Nat)
    (lib : K256Lib P κ) (p : K256ProtoPair) (signature message : List Nat) :
    Option (Except JsError Bool) :=
  (p.key H lib).map (fun r => r.bind (fun k => lib.verify k (hashMessage H message) signature))

/-- `verify(signature, message)` (src/unnamed/part_003 lines 100-108): the
whole body runs inside `try { ... } catch (e) { return false; }`, so a
thrown decoding or curve error — and likewise the stack exhaustion of the
no-material state, a catchable RangeError — surfaces as `false`. -/
def K256ProtoPair.verify {P κ : Type} (H : List Nat → List Nat)
    (lib : K256Lib P κ) (p : K256ProtoPair) (signature message : List Nat) : Bool :=
  match p.verifyBody H lib signature message with
  | some (Except.ok b) => b
  | some (Except.error _) => false
  | none => false

/-! ## K256Pair, class revision (src/src/secp256k1.js with src/src/keypair.js)

In this revision `KeyPair`'s constructor (src/src/keypair.js lines 17-21)
stores the seed under `this._seedBytes`, while `K256Pair.key()`
(src/src/secp256k1.js line 115) tests `this.seedBytes` — a property no code
path ever assigns, so the test reads `undefined` on every instance.  The
cached methods `key()` and `pubKeyCanonicalBytes()` therefore call each
other with no base case; the recursion depth is modelled by explicit fuel,
and `none` means the computation has not produced a value at that depth. -/

structure K256ClassPair where
  _seedBytes : Option (List Nat)
  _publicBytes : Option (List Nat)
  _privateBytes : Option (List Nat)
  validator : Bool

/-- `K256Pair.fromSeed(seedBytes, opts)` (src/src/secp256k1.js lines 71-73):
`new K256Pair({seedBytes, validator: opts.validator})`, stored by the
`KeyPair` constructor as `_seedBytes`. -/
def K256ClassPair.fromSeed (seedBytes : List Nat) (validator : Bool) : K256ClassPair :=
  ⟨some seedBytes, none, none, validator⟩

/-- Value of the property read `this.seedBytes` in `key()`
(src/src/secp256k1.js line 115).  The `KeyPair` constructor assigns
`this._seedBytes = seedBytes` (src/src/keypair.js line 18) and nothing ever
assigns `seedBytes` without the underscore, so the read yields `undefined`
(`none`) on every instance. -/
def K256ClassPair.seedBytes (_ : K256ClassPair) : Option (List Nat) := none

mutual

/-- Cached `key()` (src/src/secp256k1.js lines 113-120) at a given recursion
depth: when `this.seedBytes` is truthy, a key object from
`deriveSecret(this.seedBytes, {validator: this.validator})`; otherwise
`secp256k1.keyFromPublic(this.pubKeyCanonicalBytes())`.  The memo slot
`_key` is empty while the first call is still running, so the recursion
sees no cached value. -/
def K256ClassPair.keyFuel {P κ : Type} (H : List Nat → List Nat)
    (lib : K256Lib P κ) : Nat → K256ClassPair → Option (Except JsError κ)
  | 0, _ => none
  | fuel + 1, p =>
    match p.seedBytes with
    | some seed =>
      some (match deriveSecret H lib seed ⟨p.validator, none⟩ with
            | none => Except.error JsError.thrown
            | some s => lib.keyFromPrivate (BNorBytes.bn s))
    | none =>
      (K256ClassPair.pubKeyCanonicalBytesFuel H lib fuel p).map
        (fun r => r.bind lib.keyFromPublic)

/-- Cached `pubKeyCanonicalBytes()` (src/src/secp256k1.js lines 96-99) at a
given recursion depth: `this.key().getPublic().encodeCompressed()`.  Its
memo slot `_pubKeyCanonicalBytes` is distinct from every field the
constructor fills, so it always computes. -/
def K256ClassPair.pubKeyCanonicalBytesFuel {P κ : Type} (H : List Nat → List Nat)
    (lib : K256Lib P κ) : Nat → K256ClassPair → Option (Except JsError (List Nat))
  | 0, _ => none
  | fuel + 1, p =>
    (K256ClassPair.keyFuel H lib fuel p).map (fun r => r.map lib.getPublicCompressed)

end

/-- `sign(message)` (src/src/secp256k1.js lines 78-80 with 101-103):
`this.key().sign(this.hashMessage(message), {canonical: true}).toDER()`,
at a given recursion depth for the inner `key()`. -/
def K256ClassPair.signFuel {P κ : Type} (H : List Nat → List Nat)
    (lib : K256Lib P κ) (fuel : Nat) (p : K256ClassPair) (message : List Nat) :
    Option (Except JsError (List Nat)) :=
  (K256ClassPair.keyFuel H lib fuel p).map
    (fun r => r.bind (fun k => lib.sign k (hashMessage H message)))

theorem K256ClassPair.keyFuel_eq_none {P κ : Type} (H : List Nat → List Nat)
    (lib : K256Lib P κ) :
    ∀ (fuel : Nat) (p : K256ClassPair),
      K256ClassPair.keyFuel H lib fuel p = none
        ∧ K256ClassPair.pubKeyCanonicalBytesFuel H lib fuel p = none := by
  intro fuel
  induction fuel with
  | zero => intro p; exact ⟨rfl, rfl⟩
  | succ n ih =>
    intro p
    constructor
    · show (K256ClassPair.pubKeyCanonicalBytesFuel H lib n p).map _ = none
      rw [(ih p).2]; rfl
    · show (K256ClassPair.keyFuel H lib n p).map _ = none
      rw [(ih p).1]; rfl

/-! ## Ed25519 key pair (src/src/ed25519.js) and hex-api entry points (src/src/api.js) -/

/-- Operations the repository calls on `elliptic.eddsa('ed25519')`, with an
abstract key-object type `κ`.  `keyFromSecret` never throws (it only hashes
the secret); `keyFromPublic` decodes a point and may throw on malformed
bytes, as may `verify` on a malformed signature. -/
structure Ed25519Lib (κ : Type) where
  keyFromSecret : List Nat → κ
  keyFromPublic : List Nat → Except JsError κ
  pubBytes : κ → List Nat
  verify : κ → List Nat → List Nat → Except JsError Bool

/-- `deriveEdKeyPairPrivate(seed)` (src/src/ed25519.js lines 11-13):
`new Sha512().add(seed).first256()`. -/
def deriveEdKeyPairPrivate (H : List Nat → List Nat) (seed : List Nat) : List Nat :=
  (Sha512.empty.add seed).first256 H

structure Ed25519Pair where
  _seedBytes : Option (List Nat)
  _publicBytes : Option (List Nat)
  _privateBytes : Option (List Nat)

/-- `Ed25519Pair.fromSeed(seedBytes)` (src/src/ed25519.js lines 40-42). -/
def Ed25519Pair.fromSeed (seedBytes : List Nat) : Ed25519Pair :=
  ⟨some seedBytes, none, none⟩

/-- `Ed25519Pair.fromPublic(publicKey)` (src/src/ed25519.js lines 28-30),
after `parseBytes` has produced the byte array. -/
def Ed25519Pair.fromPublic (publicKey : List Nat) : Ed25519Pair :=
  ⟨none, some publicKey, none⟩

/-- `Ed25519Pair.fromPrivate(privateKey)` (src/src/ed25519.js lines 32-34). -/
def Ed25519Pair.fromPrivate (privateKey : List Nat) : Ed25519Pair :=
  ⟨none, none, some privateKey⟩

/-- `hasPrivateKey()` (src/src/keypair.js lines 64-66). -/
def Ed25519Pair.hasPrivateKey (p : Ed25519Pair) : Bool :=
  p._privateBytes.isSome || p._seedBytes.isSome

/-- Cached `_privateKeySigningBytes()` (src/src/ed25519.js lines 64-67):
`this._privateBytes ? this._privateBytes.slice(1) :
deriveEdKeyPairPrivate(this._seedBytes)`; `none` when the pair holds no
private material (the hash of `undefined` would throw). -/
def Ed25519Pair.signingBytes (H : List Nat → List Nat) (p : Ed25519Pair) :
    Option (List Nat) :=
  match p._privateBytes with
  | some pb => some (pb.drop 1)
  | none => p._seedBytes.map (deriveEdKeyPairPrivate H)

/-- Cached `key()` (src/src/ed25519.js lines 69-74): from the signing bytes
when the pair has private material, else
`Ed25519.keyFromPublic(this.publicBytes().slice(1))`, where the cached
`publicBytes()` reduces to the pre-filled `_publicBytes` memo slot (with no
material at all, `publicBytes()` and `key()` would recurse forever: `none`;
no constructor produces that state). -/
def Ed25519Pair.key {κ : Type} (H : List Nat → List Nat) (lib : Ed25519Lib κ)
    (p : Ed25519Pair) : Option (Except JsError κ) :=
  if p.hasPrivateKey then
    (p.signingBytes H).map (fun sb => Except.ok (lib.keyFromSecret sb))
  else
    p._publicBytes.map (fun pb => lib.keyFromPublic (pb.drop 1))

/-- Cached `publicBytes()` (src/src/ed25519.js lines 56-58):
`[0xED].concat(this.key().pubBytes())`; the memo slot `_publicBytes` is
pre-filled by the constructor for a `fromPublic` pair. -/
def Ed25519Pair.publicBytes {κ : Type} (H : List Nat → List Nat)
    (lib : Ed25519Lib κ) (p : Ed25519Pair) : Option (Except JsError (List Nat)) :=
  match p._publicBytes with
  | some pb => some (Except.ok pb)
  | none => (p.key H lib).map (fun r => r.map (fun k => 0xED :: lib.pubBytes k))

/-- Cached `privateBytes()` (src/src/ed25519.js lines 60-62):
`[0xED].concat(this._privateKeySigningBytes())`; the memo slot
`_privateBytes` is pre-filled by the constructor for a `fromPrivate` pair,
so the stored bytes are returned unchanged in that case. -/
def Ed25519Pair.privateBytes (H : List Nat → List Nat) (p : Ed25519Pair) :
    Option (List Nat) :=
  match p._privateBytes with
  | some pb => some pb
  | none => (p.signingBytes H).map (fun sb => 0xED :: sb)

/-- `verify(signature, message)` (src/src/ed25519.js lines 50-52):
`this.key().verify(message, signature)` with no try/catch — a library
error propagates to the caller. -/
def Ed25519Pair.verify {κ : Type} (H : List Nat → List Nat) (lib : Ed25519Lib κ)
    (p : Ed25519Pair) (signature message : List Nat) : Option (Except JsError Bool) :=
  (p.key H lib).map (fun r => r.bind (fun k => lib.verify k message signature))

/-- `ed25519.deriveKeypair(entropy)` (src/src/api.js lines 42-49), read at
byte level: the hex strings `'ED' + bytesToHex(rawPrivateKey)` and
`'ED' + bytesToHex(Ed25519.keyFromSecret(rawPrivateKey).pubBytes())`
decode to these byte lists, where
`rawPrivateKey = new Sha512().add(entropy).first256()`. -/
def ed25519DeriveKeypair {κ : Type} (H : List Nat → List Nat)
    (lib : Ed25519Lib κ) (entropy : List Nat) : List Nat × List Nat :=
  let rawPrivateKey := (Sha512.empty.add entropy).first256 H
  (0xED :: rawPrivateKey, 0xED :: lib.pubBytes (lib.keyFromSecret rawPrivateKey))

/-- `ed25519.verify(signature, message, publicKey)` (src/src/api.js lines
54-57), read at byte level:
`Ed25519.keyFromPublic(hexToBytes(publicKey).slice(1)).verify(message,
hexToBytes(signature))` with no try/catch — a library error propagates. -/
def ed25519ApiVerify {κ : Type} (lib : Ed25519Lib κ)
    (signature message publicKey : List Nat) : Except JsError Bool := do
  let key ← lib.keyFromPublic (publicKey.drop 1)
  lib.verify key message signature

/-- privateKey field of `secp256k1.deriveKeypair(entropy, options)`
(src/src/api.js lines 21-28), read at byte level: the hex string
`'00' + deriveSecret(entropy, options).toString(16, 64)` decodes to a zero
byte followed by the 32 big-endian bytes of the scalar. -/
def secpDeriveKeypairPrivateKey {P κ : Type} (H : List Nat → List Nat)
    (lib : K256Lib P κ) (entropy : List Nat) (opts : K256Opts) : Option (List Nat) :=
  (deriveSecret H lib entropy opts).map (fun s => 0x00 :: natToBytesBE 32 s)

/-! ## Top-level dispatch (src/src/api.js, src/src/utils.js) -/

inductive Algorithm where
  | ed25519 : Algorithm
  | secp256k1 : Algorithm
deriving DecidableEq

/-- `getAlgorithmFromKey(key)` (src/src/api.js lines 70-73), applied to the
decoded bytes: `bytes.length === 33 && bytes[0] === 0xED ? 'ed25519' :
'secp256k1'` (on the empty list `bytes[0]` is `undefined`, which the strict
comparison sends to the secp256k1 branch, as `List.headD 0` does). -/
def getAlgorithmFromKey (bytes : List Nat) : Algorithm :=
  if bytes.length = 33 ∧ bytes.headD 0 = 0xED then Algorithm.ed25519
  else Algorithm.secp256k1

/-- `parseKey(key)` (src/src/utils.js lines 81-88), applied to the decoded
bytes: the same length-and-leading-byte test, paired with the bytes. -/
def parseKey (bytes : List Nat) : Algorithm × List Nat :=
  (if bytes.length = 33 ∧ bytes.headD 0 = 0xED then Algorithm.ed25519
   else Algorithm.secp256k1, bytes)

/-! ## Concrete instantiations of the external interfaces, used by the
closed witness theorems. -/

/-- Hash instantiation for witnesses: every digest is 64 bytes of `0x01`,
so the first candidate of every rejection-sampling loop is the 32-byte
big-endian value `0x0101...01`, which lies strictly between 0 and `order`. -/
def constH : List Nat → List Nat := fun _ => List.replicate 64 1

/-- Concrete 16-byte seed for witnesses. -/
def sampleSeed : List Nat := List.replicate 16 0

/-- Curve-library instantiation for witnesses in which no call throws. -/
def trivialK256Lib : K256Lib Unit Unit where
  mulG := fun _ => ()
  encodeCompressed := fun _ => []
  keyFromPrivate := fun _ => Except.ok ()
  keyFromPublic := fun _ => Except.ok ()
  getPublicCompressed := fun _ => []
  sign := fun _ _ => Except.ok []
  verify := fun _ _ _ => Except.ok true

/-- Curve-library instantiation whose public-key decoding and verification
throw, as elliptic does on malformed input. -/
def throwingK256Lib : K256Lib Unit Unit where
  mulG := fun _ => ()
  encodeCompressed := fun _ => []
  keyFromPrivate := fun _ => Except.ok ()
  keyFromPublic := fun _ => Except.error JsError.thrown
  getPublicCompressed := fun _ => []
  sign := fun _ _ => Except.ok []
  verify := fun _ _ _ => Except.error JsError.thrown

/-- EdDSA-library instantiation for witnesses in which no call throws. -/
def trivialEdLib : Ed25519Lib Unit where
  keyFromSecret := fun _ => ()
  keyFromPublic := fun _ => Except.ok ()
  pubBytes := fun _ => List.replicate 32 2
  verify := fun _ _ _ => Except.ok true

/-- EdDSA-library instantiation whose public-key decoding throws, as
elliptic's point decoder does on a malformed public key (the documented
decoding-error case of spec §4.4/§7). -/
def throwingEdLib : Ed25519Lib Unit where
  keyFromSecret := fun _ => ()
  keyFromPublic := fun _ => Except.error JsError.thrown
  pubBytes := fun _ => []
  verify := fun _ _ _ => Except.ok true

/-! ## Claim theorems -/

theorem deriveScalar_eq_some_range (H : List Nat → List Nat) (bytes : List Nat)
    (discrim : Option Nat) (k : Nat) (h : deriveScalar H bytes discrim = some k) :
    0 < k ∧ k < order :=
  deriveScalarLoop_range H bytes discrim 0x100000000 0 k h

/-- C1: for every byte sequence and optional discriminator, `deriveScalar`
returns the candidate of the first counter value `i`, ascending from `0`
over the `2 ^ 32` counter values, whose candidate — the first 32 bytes of
the 512-bit hash of `bytes ++ [big-endian u32 discriminator, if present] ++
[big-endian u32 i]`, read as a big-endian unsigned integer — satisfies
`0 < candidate < order`; it fails (`none`, the fatal throw) exactly when no
such counter value exists among all `2 ^ 32` of them, since `find?` on
`range (2 ^ 32)` is `none` precisely in that case. -/
theorem deriveScalar_first_candidate (H : List Nat → List Nat) (bytes : List Nat)
    (discrim : Option Nat) :
    deriveScalar H bytes discrim
      = ((List.range (2 ^ 32)).find? (scalarOkB H bytes discrim)).map
          (scalarCandidate H bytes discrim) := by
  rw [show (2 ^ 32 : Nat) = 0x100000000 by norm_num, List.range_eq_range']
  unfold deriveScalar
  rw [deriveScalarLoop_eq_find]

/-- C5: every scalar returned by `deriveScalar`, for every input byte
sequence and every discriminator (present or absent), satisfies
`0 < scalar < order`: the value is only returned after the loop's guard
`key.cmpn(0) > 0 && key.cmp(order) < 0` has accepted it. -/
theorem deriveScalar_in_range (H : List Nat → List Nat) (bytes : List Nat)
    (discrim : Option Nat) (k : Nat) (h : deriveScalar H bytes discrim = some k) :
    0 < k ∧ k < order :=
  deriveScalar_eq_some_range H bytes discrim k h

/-- Witness for C5's theorem at the concrete hash `constH` and seed
`sampleSeed`: the returned scalar is the 32-byte value `0x0101...01`. -/
theorem deriveScalar_in_range_witness :
    0 < (0x0101010101010101010101010101010101010101010101010101010101010101 : Nat)
      ∧ (0x0101010101010101010101010101010101010101010101010101010101010101 : Nat) < order :=
  deriveScalar_in_range constH sampleSeed none
    0x0101010101010101010101010101010101010101010101010101010101010101 rfl

/-- C2: the secp256k1 private-scalar derivation first computes
`privateGen = deriveScalar(seed)` with no discriminator; with the root
(validator) flag set it returns `privateGen` unchanged; otherwise it
returns `(deriveScalar(encodeCompressed(basePoint * privateGen),
accountIndex) + privateGen) mod order`, with the account index defaulting
to `0` (an absent `accountIndex` derives the same secret as an explicit
`0`). -/
theorem deriveSecret_two_stage {P κ : Type} (H : List Nat → List Nat)
    (lib : K256Lib P κ) (seed : List Nat) (ai : Option Nat) (g : Nat)
    (hg : deriveScalar H seed none = some g) :
    deriveSecret H lib seed ⟨true, ai⟩ = some g
    ∧ deriveSecret H lib seed ⟨false, ai⟩
        = (deriveScalar H (lib.encodeCompressed (lib.mulG g)) (some (ai.getD 0))).map
            (fun offset => (offset + g) % order)
    ∧ deriveSecret H lib seed ⟨false, none⟩ = deriveSecret H lib seed ⟨false, some 0⟩ := by
  refine ⟨by simp [deriveSecret, hg], ?_, rfl⟩
  simp only [deriveSecret, hg, if_neg (Bool.false_ne_true)]
  cases h2 : deriveScalar H (lib.encodeCompressed (lib.mulG g)) (some (ai.getD 0)) <;> simp [h2]

/-- Witness for C2's theorem at the concrete hash `constH`, the trivial
curve library and `sampleSeed`. -/
theorem deriveSecret_two_stage_witness :
    deriveSecret constH trivialK256Lib sampleSeed ⟨true, none⟩
        = some 0x0101010101010101010101010101010101010101010101010101010101010101
    ∧ deriveSecret constH trivialK256Lib sampleSeed ⟨false, none⟩
        = (deriveScalar constH
              (trivialK256Lib.encodeCompressed (trivialK256Lib.mulG
                0x0101010101010101010101010101010101010101010101010101010101010101))
              (some 0)).map
            (fun offset =>
              (offset + 0x0101010101010101010101010101010101010101010101010101010101010101) % order)
    ∧ deriveSecret constH trivialK256Lib sampleSeed ⟨false, none⟩
        = deriveSecret constH trivialK256Lib sampleSeed ⟨false, some 0⟩ :=
  deriveSecret_two_stage constH trivialK256Lib sampleSeed none
    0x0101010101010101010101010101010101010101010101010101010101010101 rfl

/-- C6: for the same seed, the scalar derived with the root (validator)
flag set differs from the scalar derived with the flag unset and account
index `0`, whenever both derivations return: the non-root scalar is
`(offset + privateGen) mod order` with `0 < offset < order`, which can
never reduce to `privateGen` itself. -/
theorem deriveSecret_root_ne_account_zero {P κ : Type} (H : List Nat → List Nat)
    (lib : K256Lib P κ) (seed : List Nat) (a b : Nat)
    (ha : deriveSecret H lib seed ⟨true, none⟩ = some a)
    (hb : deriveSecret H lib seed ⟨false, some 0⟩ = some b) :
    a ≠ b := by
  cases hg : deriveScalar H seed none with
  | none => simp [deriveSecret, hg] at ha
  | some g =>
    simp [deriveSecret, hg] at ha hb
    cases hoff : deriveScalar H (lib.encodeCompressed (lib.mulG g)) (some 0) with
    | none => simp [hoff] at hb
    | some off =>
      simp [hoff] at hb
      have hgr := deriveScalar_eq_some_range H seed none g hg
      have hor := deriveScalar_eq_some_range H
        (lib.encodeCompressed (lib.mulG g)) (some 0) off hoff
      subst ha
      intro heq
      rcases Nat.lt_or_ge (off + g) order with hlt | hge
      · rw [Nat.mod_eq_of_lt hlt] at hb
        omega
      · have hsub : off + g - order < order := by omega
        rw [Nat.mod_eq_sub_mod hge, Nat.mod_eq_of_lt hsub] at hb
        omega

/-- Witness for C6's theorem at the concrete hash `constH`: the root scalar
is `0x0101...01` and the account-0 scalar is `0x0202...02`. -/
theorem deriveSecret_root_ne_account_zero_witness :
    (0x0101010101010101010101010101010101010101010101010101010101010101 : Nat)
      ≠ 0x0202020202020202020202020202020202020202020202020202020202020202 :=
  deriveSecret_root_ne_account_zero constH trivialK256Lib sampleSeed
    0x0101010101010101010101010101010101010101010101010101010101010101
    0x0202020202020202020202020202020202020202020202020202020202020202 rfl rfl

/-- C7: ed25519 derivation is single-stage: for a pair built from a seed,
the private signing secret is the first 32 bytes of the 512-bit hash of the
seed bytes, and the public-key encoding is the discriminator byte `0xED`
followed by the standard EdDSA public point for that secret — through the
key-pair class (src/src/ed25519.js) and through `ed25519.deriveKeypair`
(src/src/api.js) alike. -/
theorem ed25519_single_stage_derivation {κ : Type} (H : List Nat → List Nat)
    (lib : Ed25519Lib κ) (seed : List Nat) :
    (Ed25519Pair.fromSeed seed).signingBytes H = some ((H seed).take 32)
    ∧ (Ed25519Pair.fromSeed seed).publicBytes H lib
        = some (Except.ok (0xED :: lib.pubBytes (lib.keyFromSecret ((H seed).take 32))))
    ∧ ed25519DeriveKeypair H lib seed
        = (0xED :: (H seed).take 32,
           0xED :: lib.pubBytes (lib.keyFromSecret ((H seed).take 32))) :=
  ⟨rfl, rfl, rfl⟩

/-- C9: the top-level sign/verify dispatch infers the algorithm solely from
the decoded key bytes: ed25519 exactly when the bytes are 33 long with
leading byte `0xED`, and secp256k1 in every other case; `parseKey` applies
the same rule and passes the bytes through unchanged. -/
theorem getAlgorithmFromKey_sniffing (bytes : List Nat) :
    (getAlgorithmFromKey bytes = Algorithm.ed25519
        ↔ bytes.length = 33 ∧ bytes.head? = some 0xED)
    ∧ (getAlgorithmFromKey bytes = Algorithm.secp256k1
        ↔ ¬(bytes.length = 33 ∧ bytes.head? = some 0xED))
    ∧ (parseKey bytes).1 = getAlgorithmFromKey bytes
    ∧ (parseKey bytes).2 = bytes := by
  cases bytes with
  | nil => simp [getAlgorithmFromKey, parseKey]
  | cons a t =>
    simp only [getAlgorithmFromKey, parseKey, List.headD_cons, List.head?_cons,
      List.length_cons]
    by_cases h : t.length + 1 = 33 ∧ a = 0xED
    · rw [if_pos h]
      simp [h.1, h.2]
    · rw [if_neg h]
      refine ⟨⟨fun hc => absurd hc (by decide), fun hc => absurd ⟨hc.1, Option.some.inj hc.2⟩ h⟩,
        ⟨fun _ hc => h ⟨hc.1, Option.some.inj hc.2⟩, fun _ => rfl⟩, trivial, trivial⟩

/-- C3 (code_bug evidence): for the class revision (src/src/secp256k1.js),
a pair constructed from a seed cannot sign at all, so the sign/verify
round-trip claim fails there: `key()` tests `this.seedBytes`, a property
the `KeyPair` constructor never assigns (it stores `this._seedBytes`), so
`key()` and `pubKeyCanonicalBytes()` call each other without a base case
and `sign` produces no value at any recursion depth. -/
theorem k256ClassPair_sign_diverges {P κ : Type} (H : List Nat → List Nat)
    (lib : K256Lib P κ) (fuel : Nat) (seed : List Nat) (validator : Bool)
    (message : List Nat) :
    K256ClassPair.signFuel H lib fuel (K256ClassPair.fromSeed seed validator) message
      = none := by
  unfold K256ClassPair.signFuel
  rw [(K256ClassPair.keyFuel_eq_none H lib fuel _).1]
  rfl

/-- C10 (code_bug evidence): for a pair built by `K256Pair.fromSeed` in the
class revision, `key()` and `pubKeyCanonicalBytes()` produce no value at
any recursion depth: the seed test in `key()` reads `this.seedBytes`, which
is never the field `this._seedBytes` the constructor stored, so the mutual
recursion between the two methods has no base case. -/
theorem k256ClassPair_key_diverges {P κ : Type} (H : List Nat → List Nat)
    (lib : K256Lib P κ) (fuel : Nat) (seed : List Nat) (validator : Bool) :
    K256ClassPair.keyFuel H lib fuel (K256ClassPair.fromSeed seed validator) = none
    ∧ K256ClassPair.pubKeyCanonicalBytesFuel H lib fuel
        (K256ClassPair.fromSeed seed validator) = none :=
  K256ClassPair.keyFuel_eq_none H lib fuel (K256ClassPair.fromSeed seed validator)

/-- C4 counterexample: at the hex-api ed25519 verify entry point
(src/src/api.js lines 54-57) a key-decoding error of the external library
is not caught: with a library whose point decoder throws on the malformed
key — exactly what elliptic does — the error propagates out of `verify`
instead of surfacing as `false`, refuting the claim that every public
verify entry point catches all decoding/curve errors internally. -/
theorem ed25519ApiVerify_error_propagates :
    ed25519ApiVerify throwingEdLib [1] [2] [0xED, 3] = Except.error JsError.thrown :=
  rfl

/-- C4 as amended: only the secp256k1 key-pair class's `verify` runs inside
try/catch and surfaces every internal error as `false`; the ed25519
class `verify` and the hex-api ed25519 `verify` pass the library outcome
through unprotected, so a decoding error there propagates to the caller. -/
theorem verify_error_policy {P κ κ' : Type} (H : List Nat → List Nat)
    (lib : K256Lib P κ) (edlib : Ed25519Lib κ') (p : K256ProtoPair)
    (signature message pk pb : List Nat) (e : JsError) :
    (∀ e', p.verifyBody H lib signature message = some (Except.error e') →
        p.verify H lib signature message = false)
    ∧ (edlib.keyFromPublic (pk.drop 1) = Except.error e →
        ed25519ApiVerify edlib signature message pk = Except.error e)
    ∧ (edlib.keyFromPublic (pb.drop 1) = Except.error e →
        (Ed25519Pair.fromPublic pb).verify H edlib signature message
          = some (Except.error e)) := by
  refine ⟨?_, ?_, ?_⟩
  · intro e' hbody
    simp [K256ProtoPair.verify, hbody]
  · intro hk
    rw [List.drop_one] at hk
    simp [ed25519ApiVerify, Bind.bind, Except.bind, hk]
  · intro hk
    rw [List.drop_one] at hk
    simp [Ed25519Pair.verify, Ed25519Pair.key, Ed25519Pair.hasPrivateKey,
      Ed25519Pair.fromPublic, Except.bind, hk]

/-- Witness for C4's amended theorem: a concrete public-only secp256k1 pair
whose library throws yields `false` from the class `verify`, while the two
ed25519 verify paths propagate the same thrown error. -/
theorem verify_error_policy_witness :
    K256ProtoPair.verify constH throwingK256Lib (K256ProtoPair.fromPublic [2]) [1] [2] = false
    ∧ ed25519ApiVerify throwingEdLib [1] [2] [0xED, 3] = Except.error JsError.thrown
    ∧ (Ed25519Pair.fromPublic [0xED, 3]).verify constH throwingEdLib [1] [2]
        = some (Except.error JsError.thrown) :=
  have t := verify_error_policy constH throwingK256Lib throwingEdLib
    (K256ProtoPair.fromPublic [2]) [1] [2] [0xED, 3] [0xED, 3] JsError.thrown
  ⟨t.1 JsError.thrown rfl, t.2.1 rfl, t.2.2 rfl⟩

/-- C8 counterexample: the cached `privateBytes()` of the prototype-revision
secp256k1 pair (src/unnamed/part_003 lines 133-135) is
`this._private().toArray('be', 32)` — 32 bytes with no `0x00` type
discriminator — so for a concrete seed-derived pair its length is 32, not
the claimed 33. -/
theorem k256ProtoPair_privateBytes_not_33 :
    (K256ProtoPair.privateBytes constH trivialK256Lib
        (K256ProtoPair.fromSeed sampleSeed false)).map List.length = some 32
    ∧ (K256ProtoPair.privateBytes constH trivialK256Lib
        (K256ProtoPair.fromSeed sampleSeed false)).map List.length ≠ some 33 :=
  ⟨rfl, by decide⟩

/-- C8 as amended: the ed25519 `privateBytes()` of a seed-built pair and the
privateKey fields derived by the hex api are 33 bytes with the stated
discriminator bytes (`0xED`, respectively `0x00`), but the class-based
secp256k1 `privateBytes()` is the bare 32-byte big-endian scalar with no
leading `0x00`. -/
theorem privateKey_encoding_lengths {P κ κ' : Type} (H : List Nat → List Nat)
    (lib : K256Lib P κ) (edlib : Ed25519Lib κ') (seed entropy : List Nat)
    (validator : Bool) (s : Nat)
    (hsecp : deriveSecret H lib seed ⟨validator, none⟩ = some s)
    (hlen : 32 ≤ (H entropy).length) :
    ((Ed25519Pair.fromSeed entropy).privateBytes H = some (0xED :: (H entropy).take 32)
      ∧ (0xED :: (H entropy).take 32).length = 33)
    ∧ ((ed25519DeriveKeypair H edlib entropy).1.length = 33
      ∧ (ed25519DeriveKeypair H edlib entropy).1.headD 0 = 0xED)
    ∧ (secpDeriveKeypairPrivateKey H lib seed ⟨validator, none⟩
          = some (0x00 :: natToBytesBE 32 s)
      ∧ (0x00 :: natToBytesBE 32 s).length = 33)
    ∧ (K256ProtoPair.privateBytes H lib (K256ProtoPair.fromSeed seed validator)
          = some (natToBytesBE 32 s)
      ∧ (natToBytesBE 32 s).length = 32) := by
  refine ⟨⟨rfl, ?_⟩, ⟨?_, rfl⟩, ⟨?_, ?_⟩, ⟨?_, ?_⟩⟩
  · simp [List.length_take]
    omega
  · show (0xED :: (H ([] ++ entropy)).take 32).length = 33
    simp [List.length_take]
    omega
  · simp [secpDeriveKeypairPrivateKey, hsecp]
  · simp [natToBytesBE_length]
  · simp [K256ProtoPair.privateBytes, K256ProtoPair.fromSeed, hsecp]
  · simp [natToBytesBE_length]

/-- Witness for C8's amended theorem at the concrete hash `constH`, seed
`sampleSeed` and the trivial libraries. -/
theorem privateKey_encoding_lengths_witness :
    ((Ed25519Pair.fromSeed sampleSeed).privateBytes constH
          = some (0xED :: (constH sampleSeed).take 32)
      ∧ (0xED :: (constH sampleSeed).take 32).length = 33)
    ∧ ((ed25519DeriveKeypair constH trivialEdLib sampleSeed).1.length = 33
      ∧ (ed25519DeriveKeypair constH trivialEdLib sampleSeed).1.headD 0 = 0xED)
    ∧ (secpDeriveKeypairPrivateKey constH trivialK256Lib sampleSeed ⟨false, none⟩
          = some (0x00 :: natToBytesBE 32
              0x0202020202020202020202020202020202020202020202020202020202020202)
      ∧ (0x00 :: natToBytesBE 32
            0x0202020202020202020202020202020202020202020202020202020202020202).length = 33)
    ∧ (K256ProtoPair.privateBytes constH trivialK256Lib
          (K256ProtoPair.fromSeed sampleSeed false)
          = some (natToBytesBE 32
              0x0202020202020202020202020202020202020202020202020202020202020202)
      ∧ (natToBytesBE 32
            0x0202020202020202020202020202020202020202020202020202020202020202).length = 32) :=
  privateKey_encoding_lengths constH trivialK256Lib trivialEdLib sampleSeed sampleSeed
    false 0x0202020202020202020202020202020202020202020202020202020202020202
    rfl (by decide)

end RippleKeypairs
